import Mathlib

/-!
Verification of the style-resolution and document-assembly pipeline of the
legal-doc-ai repository (`src/style_extractor.py`, `src/document_builder.py`).

The Python code is shallowly embedded: dictionaries become association lists,
Python string operations (`split`, `in`, `replace`, `strip`, `upper`) are
re-implemented over character lists with Python semantics, exceptions become
`Except`, and the docx side effects (`add_paragraph`, table construction,
`doc.save`) become an explicit list of render instructions and a list of
written files.
-/

set_option maxRecDepth 20000

namespace LegalDocAI

/-! ## Python string primitives -/

/-- Characters stripped by Python `str.strip()`. -/
def isPySpace (c : Char) : Bool :=
  c = ' ' || c = '\t' || c = '\n' || c = '\r' || c = '\x0b' || c = '\x0c'

/-- `text.split('\n')` on the underlying character list. -/
def splitNl : List Char → List (List Char)
  | [] => [[]]
  | c :: cs =>
    let r := splitNl cs
    if c = '\n' then [] :: r
    else
      match r with
      | [] => [[c]]
      | l :: ls => (c :: l) :: ls

/-- Python `text.split('\n')`. -/
def pySplitLines (s : String) : List String :=
  (splitNl s.data).map (fun l => String.mk l)

/-- Whether `pat` is a prefix of `l` (helper for substring search). -/
def isPrefixL : List Char → List Char → Bool
  | [], _ => true
  | _ :: _, [] => false
  | p :: ps, c :: cs => p = c && isPrefixL ps cs

/-- Whether `pat` occurs as a contiguous substring of the second list. -/
def containsL (pat : List Char) : List Char → Bool
  | [] => isPrefixL pat []
  | c :: cs => isPrefixL pat (c :: cs) || containsL pat cs

/-- Python `sub in s` (substring containment). -/
def pyContains (s sub : String) : Bool :=
  containsL sub.data s.data

/-- Fuel-indexed worker for `pyReplaceEmpty`; the fuel is the list length. -/
def removeAllGo (pat : List Char) : Nat → List Char → List Char
  | _, [] => []
  | 0, l => l
  | fuel + 1, c :: cs =>
    if !pat.isEmpty && isPrefixL pat (c :: cs) then
      removeAllGo pat fuel (List.drop (pat.length - 1) cs)
    else
      c :: removeAllGo pat fuel cs

/-- Python `s.replace(pat, "")`: every (leftmost, non-overlapping) occurrence
of `pat` is removed. -/
def pyReplaceEmpty (s pat : String) : String :=
  String.mk (removeAllGo pat.data s.data.length s.data)

/-- Python `s.strip()`. -/
def pyStrip (s : String) : String :=
  String.mk (((s.data.dropWhile isPySpace).reverse.dropWhile isPySpace).reverse)

/-- Python `s.upper()` (ASCII, as used for document categories). -/
def pyUpper (s : String) : String :=
  String.mk (s.data.map Char.toUpper)

/-! ## Style data model

A style property dictionary (one value of the per-category style JSON) maps
property names to scalar values; a style profile maps style names to such
dictionaries, mirroring the JSON files handled by `style_extractor.py`. -/

/-- A scalar JSON value stored in a style property dictionary. -/
inductive SVal where
  | s (v : String)
  | n (v : Rat)
  | b (v : Bool)
deriving DecidableEq, Repr

/-- One style's property dictionary, e.g. `{"font": ..., "size": ...}`. -/
abbrev StyleProps := List (String × SVal)

/-- A style profile: style name to property dictionary. -/
abbrev StyleJson := List (String × StyleProps)

/-- Python `d.get(key)` on a string-keyed dictionary (association list). -/
def aget {α : Type} : List (String × α) → String → Option α
  | [], _ => none
  | (k, v) :: rest, key => if k = key then some v else aget rest key

/-- Lookup in a style property dictionary. -/
def dget (d : StyleProps) (key : String) : Option SVal :=
  aget d key

/-- Lookup in a style profile. -/
def pget (sj : StyleJson) (key : String) : Option StyleProps :=
  aget sj key

/-- Python `d[key] = v` on a property dictionary: overwrite in place if the
key exists, append otherwise. -/
def dset : StyleProps → String → SVal → StyleProps
  | [], k, v => [(k, v)]
  | (k0, v0) :: rest, k, v =>
    if k0 = k then (k, v) :: rest else (k0, v0) :: dset rest k v

/-- Python `dict.copy()`: a fresh shallow copy, so a later key assignment on
the copy does not reach the dictionary it was copied from.  On the pure
embedding the copy is the identity. -/
def styleCopy (d : StyleProps) : StyleProps := d

/-- Paragraph alignment (`WD_PARAGRAPH_ALIGNMENT`). -/
inductive Alignment where
  | left
  | center
  | right
  | justify
deriving DecidableEq, Repr

/-- `ALIGN_MAP.get(value, WD_PARAGRAPH_ALIGNMENT.LEFT)` from
`document_builder.py`: any value other than the four known strings maps to
left. -/
def alignMapGet : SVal → Alignment
  | .s "left" => .left
  | .s "center" => .center
  | .s "right" => .right
  | .s "justify" => .justify
  | _ => .left

/-- The formatting actually applied to a paragraph by
`apply_style_to_paragraph`: each field is read from the property dictionary
with the source's fallback default. -/
structure AppliedFormat where
  font : SVal
  size : SVal
  bold : SVal
  italic : SVal
  underline : SVal
  align : Alignment
  spacing : SVal
  indentLeft : SVal
  indentRight : SVal
deriving DecidableEq, Repr

/-- `apply_style_to_paragraph(paragraph, style_props)` (document_builder.py,
lines 33-55), modelled as the format it applies. -/
def apply_style_to_paragraph (styleProps : StyleProps) : AppliedFormat :=
  { font := (dget styleProps "font").getD (.s "Times New Roman")
    size := (dget styleProps "size").getD (.n 12)
    bold := (dget styleProps "bold").getD (.b false)
    italic := (dget styleProps "italic").getD (.b false)
    underline := (dget styleProps "underline").getD (.b false)
    align := alignMapGet ((dget styleProps "align").getD (.s "left"))
    spacing := (dget styleProps "spacing").getD (.n 1)
    indentLeft := (dget styleProps "indent_left").getD (.n 0)
    indentRight := (dget styleProps "indent_right").getD (.n 0) }

/-- `get_default_styles()` (style_extractor.py, lines 113-124), verbatim:
note that the entries carry only six fields — no `underline`,
`indent_left` or `indent_right` keys. -/
def get_default_styles : StyleJson :=
  [("Heading 1",
     [("font", .s "Calibri Light"), ("size", .n 16), ("bold", .b true),
      ("italic", .b false), ("align", .s "center"), ("spacing", .n 1)]),
   ("Heading 2",
     [("font", .s "Calibri"), ("size", .n 14), ("bold", .b true),
      ("italic", .b false), ("align", .s "left"), ("spacing", .n 1)]),
   ("Normal",
     [("font", .s "Times New Roman"), ("size", .n 12), ("bold", .b false),
      ("italic", .b false), ("align", .s "justify"), ("spacing", .n 1)]),
   ("Paragraph",
     [("font", .s "Times New Roman"), ("size", .n 12), ("bold", .b false),
      ("italic", .b false), ("align", .s "justify"), ("spacing", .n 1)]),
   ("Signature",
     [("font", .s "Times New Roman"), ("size", .n 12), ("bold", .b false),
      ("italic", .b false), ("align", .s "left"), ("spacing", .n (mkRat 3 2))])]

/-- The five essential style names of the spec's StyleProfile invariant. -/
def essentialNames : List String :=
  ["Heading 1", "Heading 2", "Normal", "Paragraph", "Signature"]

/-! ## Style extraction from a reference template
(`extract_styles_from_template`, style_extractor.py lines 32-94) -/

/-- The paragraph-level facts `extract_styles_from_template` reads from one
paragraph of a reference template via python-docx: its style name, whether it
has runs, and the first run's font and the paragraph format. `none` models a
Python `None` (property unset). -/
structure TemplatePara where
  styleName : String
  hasRuns : Bool
  fontName : Option String
  fontSizePt : Option Rat
  bold : Option Bool
  italic : Option Bool
  underline : Option Bool
  alignment : Option Alignment
  lineSpacing : Option Rat
  leftIndentPt : Option Rat
  rightIndentPt : Option Rat
deriving DecidableEq, Repr

/-- `ALIGNMENT_MAP.get(para.alignment, "left")` (style_extractor.py lines
23-29): the four known enum values map to their names, `None` and anything
else to `"left"`. -/
def alignmentMapGet : Option Alignment → String
  | some .left => "left"
  | some .center => "center"
  | some .right => "right"
  | some .justify => "justify"
  | none => "left"

/-- The nine-field property dictionary built for one scanned paragraph
(style_extractor.py lines 50-78), including the Python truthiness fallbacks
(`font.name or "Default"`, `... if font.size else 12`,
`line_spacing or 1.0`, `... if pf.left_indent else 0`). -/
def paraProps (p : TemplatePara) : StyleProps :=
  let fontv : String :=
    if p.hasRuns then
      match p.fontName with
      | some s => if s = "" then "Default" else s
      | none => "Default"
    else "Default"
  let sizev : Rat :=
    if p.hasRuns then
      match p.fontSizePt with
      | some q => if q = 0 then 12 else q
      | none => 12
    else 12
  let boldv : Bool := if p.hasRuns then p.bold.getD false else false
  let italicv : Bool := if p.hasRuns then p.italic.getD false else false
  let underlinev : Bool := if p.hasRuns then p.underline.getD false else false
  let spacingv : Rat :=
    match p.lineSpacing with
    | some q => if q = 0 then 1 else q
    | none => 1
  [("font", .s fontv), ("size", .n sizev), ("bold", .b boldv),
   ("italic", .b italicv), ("underline", .b underlinev),
   ("align", .s (alignmentMapGet p.alignment)), ("spacing", .n spacingv),
   ("indent_left", .n (p.leftIndentPt.getD 0)),
   ("indent_right", .n (p.rightIndentPt.getD 0))]

/-- One step of the paragraph scan: first occurrence of a style name wins
(style_extractor.py lines 43-48 and 68-78). -/
def scanStep (styleData : StyleJson) (p : TemplatePara) : StyleJson :=
  if (pget styleData p.styleName).isSome then styleData
  else styleData ++ [(p.styleName, paraProps p)]

/-- One step of the essential-style injection loop (style_extractor.py lines
84-88): a missing essential name gets the default table's entry. -/
def injectStep (styleData : StyleJson) (entry : String × StyleProps) : StyleJson :=
  if (pget styleData entry.1).isSome then styleData
  else styleData ++ [(entry.1, entry.2)]

/-- `extract_styles_from_template(template_path, save_path)` (style_extractor
lines 32-94), modelled on the scanned paragraphs of the template: scan each
paragraph (first occurrence of a style name wins), then inject the default
entry for every essential style name that was not found. -/
def extract_styles_from_template (paras : List TemplatePara) : StyleJson :=
  get_default_styles.foldl injectStep (paras.foldl scanStep [])

/-! ## Style resolution (document_builder.py lines 196-217,
style_extractor.py lines 97-110) -/

/-- The Python exceptions that can escape document building. -/
inductive BuildErr where
  | fileNotFound (msg : String)
  | jsonDecodeError
  | attributeError (attr : String)
  | typeError (msg : String)
deriving DecidableEq, Repr

/-- `load_style_json(doc_type)` (style_extractor.py lines 97-110).  The
per-category style file is modelled as `none` when
`os.path.exists(style_path)` is false, and otherwise as the outcome of
`json.load` on it — which raises (propagates) when the file is corrupt, and
returns the file's mapping verbatim when it parses. -/
def load_style_json (catFile : Option (Except BuildErr StyleJson)) :
    Except BuildErr StyleJson :=
  match catFile with
  | some r => r
  | none => .ok get_default_styles

/-- The style-resolution prelude of `build_document_from_json_content`
(document_builder.py lines 196-217): try extraction from the reference
document inside `try/except` (any error leaves `style_json` unset), then
`if not style_json: style_json = load_style_json(doc_type)`.
`refExtract` is the outcome of the whole extraction attempt (docx open,
extraction, JSON round trip through the temp file). -/
def resolveStyles (refProvided refExistsOnDisk : Bool)
    (refExtract : Except BuildErr StyleJson)
    (catFile : Option (Except BuildErr StyleJson)) : Except BuildErr StyleJson :=
  let styleJson : Option StyleJson :=
    if refProvided && refExistsOnDisk then
      match refExtract with
      | .ok sj => some sj
      | .error _ => none
    else none
  match styleJson with
  | some sj => if sj.isEmpty then load_style_json catFile else .ok sj
  | none => load_style_json catFile

/-! ## Structured JSON content -/

/-- A JSON value as handed to `build_document_from_json_content` inside the
content dictionary. -/
inductive JVal where
  | str (v : String)
  | num (v : Rat)
  | bool (v : Bool)
  | null
  | obj (fields : List (String × JVal))
  | arr (elems : List JVal)

/-- Python `==` between two content values.  Scalars compare as in Python
(`True == 1`, `False == 0`); container equality is not modelled (the values
compared by the builder — section types, section contents, titles — are
scalars), so distinct containers compare unequal. -/
def pyEq : JVal → JVal → Bool
  | .str a, .str b => a == b
  | .num a, .num b => a == b
  | .num a, .bool b => a == (if b then (1 : Rat) else 0)
  | .bool a, .num b => (if a then (1 : Rat) else 0) == b
  | .bool a, .bool b => a == b
  | .null, .null => true
  | _, _ => false

/-- Python truthiness of a content value. -/
def jtruthy : JVal → Bool
  | .str s => !(s = "")
  | .num q => !(q = 0)
  | .bool b => b
  | .null => false
  | .obj fields => !fields.isEmpty
  | .arr elems => !elems.isEmpty

/-- `doc.add_paragraph(value)`: a string becomes the paragraph text; a falsy
non-string adds an empty paragraph (python-docx only adds a run `if text:`);
a truthy non-string raises a `TypeError` when the run text is set. -/
def add_paragraph_text : JVal → Except BuildErr String
  | .str s => .ok s
  | v => if jtruthy v then .error (.typeError "run text must be a string") else .ok ""

/-! ## Signature layout (document_builder.py lines 58-138) -/

/-- The 29-underscore signature rule appearing in the source's signature
paragraphs and cells. -/
def ruleLine : String := "_____________________________"

/-- The date line `"Date: _________________"` (17 underscores). -/
def dateLine : String := "Date: _________________"

/-- One cell of the contract signature table: its final text and the border
values appended to its `tcPr` (`w:tcBorders`). -/
structure SigCell where
  text : String
  borders : List (String × String)
deriving DecidableEq, Repr

/-- The two-column signature table built by `add_contract_signature`:
party cells on the first row, a merged date cell on the second, and the
column widths in inches. -/
structure SigTable where
  rows : Nat
  cols : Nat
  cell00 : SigCell
  cell01 : SigCell
  dateCell : SigCell
  dateMerged : Bool
  colWidthInches : Rat × Rat
deriving DecidableEq, Repr

/-- The border settings written for every cell (document_builder.py lines
112-117): `w:val = "nil"` for top, left, bottom, right. -/
def nilBorders : List (String × String) :=
  [("top", "nil"), ("left", "nil"), ("bottom", "nil"), ("right", "nil")]

/-- A unit of output produced by the builder: a styled paragraph, or the
contract signature table. -/
inductive RenderInstr where
  | body (text : String) (fmt : AppliedFormat)
  | sigTable (t : SigTable)
deriving DecidableEq, Repr

/-- One iteration of the party-extraction loop in `add_signature_section`
(document_builder.py lines 67-71): a line containing
`"Disclosing Party:"` overwrites the disclosing value with the line minus
every occurrence of the label, stripped; otherwise a line containing
`"Receiving Party:"` does the same for the receiving value; other lines are
ignored. -/
def partyStep (acc : String × String) (line : String) : String × String :=
  if pyContains line "Disclosing Party:" then
    (pyStrip (pyReplaceEmpty line "Disclosing Party:"), acc.2)
  else if pyContains line "Receiving Party:" then
    (acc.1, pyStrip (pyReplaceEmpty line "Receiving Party:"))
  else acc

/-- The party extraction of `add_signature_section` (document_builder.py
lines 62-71), starting from two empty values. -/
def parseParties (signatureContent : String) : String × String :=
  (pySplitLines signatureContent).foldl partyStep ("", "")

/-- `add_nda_signature(doc, disclosing_party, signature_style)`
(document_builder.py lines 83-91): one paragraph with the disclosing party
and a signature rule, then a separate date paragraph, both styled with the
signature style. -/
def add_nda_signature (disclosingParty : String) (signatureStyle : StyleProps) :
    List RenderInstr :=
  [.body ("Disclosing Party:\n" ++ disclosingParty ++ "\n\n" ++ ruleLine)
      (apply_style_to_paragraph signatureStyle),
   .body dateLine (apply_style_to_paragraph signatureStyle)]

/-- `add_contract_signature(doc, disclosing_party, receiving_party,
signature_style)` (document_builder.py lines 94-138): a 2x2 table, `nil`
borders on every cell, 3-inch columns, party cells side by side, and the
second row merged into a single date cell.  The `signature_style` argument
is applied to the cells' initial empty paragraphs, which the subsequent
`cell.text` assignments replace, so it does not survive into the final
cells and is not recorded. -/
def add_contract_signature (disclosingParty receivingParty : String)
    (signatureStyle : StyleProps) : SigTable :=
  let _ := signatureStyle
  { rows := 2
    cols := 2
    cell00 := { text := "Disclosing Party:\n" ++ disclosingParty ++ "\n\n" ++ ruleLine
                borders := nilBorders }
    cell01 := { text := "Receiving Party:\n" ++ receivingParty ++ "\n\n" ++ ruleLine
                borders := nilBorders }
    dateCell := { text := dateLine, borders := nilBorders }
    dateMerged := true
    colWidthInches := (3, 3) }

/-- `add_signature_section(doc, signature_content, style_json, doc_type)`
(document_builder.py lines 58-80): parse the party names, resolve the
signature style (`"Signature"` falling back to `"Normal"` falling back to
`{}`), then dispatch on `doc_type.upper() == "NDA"`. -/
def add_signature_section (signatureContent : String) (styleJson : StyleJson)
    (docType : String) : List RenderInstr :=
  let parties := parseParties signatureContent
  let signatureStyle := (pget styleJson "Signature").getD ((pget styleJson "Normal").getD [])
  if pyUpper docType = "NDA" then
    add_nda_signature parties.1 signatureStyle
  else
    [.sigTable (add_contract_signature parties.1 parties.2 signatureStyle)]

/-! ## Content assembly (document_builder.py lines 219-252) -/

/-- `style_json.get(k, style_json.get(fb, {}))`. -/
def styleGetOr (styleJson : StyleJson) (k fb : String) : StyleProps :=
  (pget styleJson k).getD ((pget styleJson fb).getD [])

/-- `style_json.get(section_type, style_json.get("Normal", {}))` where
`section_type` is a content value: only a string key can match the
string-keyed profile. -/
def styleGetForType (styleJson : StyleJson) (sectionType : JVal) : StyleProps :=
  match sectionType with
  | .str s => styleGetOr styleJson s "Normal"
  | _ => (pget styleJson "Normal").getD []

/-- The body of the section loop of `build_document_from_json_content`
(document_builder.py lines 229-252) for one `section_data` value, returning
the emitted instructions together with the style profile as the iteration
leaves it.  A non-dictionary section raises (`section_data.get`). -/
def assembleSection (styleJson : StyleJson) (titleAdded : Bool) (titleVal : JVal)
    (docType : String) (sectionData : JVal) :
    Except BuildErr (List RenderInstr × StyleJson) :=
  match sectionData with
  | .obj fields =>
    let sectionType := (aget fields "type").getD (.str "Paragraph")
    let sectionContent := (aget fields "content").getD (.str "")
    if titleAdded && pyEq sectionType (.str "Heading 1") && pyEq sectionContent titleVal then
      .ok ([], styleJson)
    else if pyEq sectionType (.str "Signature") then
      match sectionContent with
      | .str raw => .ok (add_signature_section raw styleJson docType, styleJson)
      | _ => .error (.attributeError "split")
    else
      match add_paragraph_text sectionContent with
      | .error e => .error e
      | .ok txt =>
        let styleProps := styleGetForType styleJson sectionType
        let styleProps2 :=
          if pyEq sectionType (.str "Paragraph") || pyEq sectionType (.str "Normal") then
            dset (styleCopy styleProps) "align" (SVal.s "justify")
          else styleProps
        .ok ([.body txt (apply_style_to_paragraph styleProps2)], styleJson)
  | _ => .error (.attributeError "get")

/-- Folding one section entry into the accumulated instructions and profile
state; an earlier exception short-circuits the loop. -/
def assembleFold (docType : String) (titleAdded : Bool) (titleVal : JVal)
    (acc : Except BuildErr (List RenderInstr × StyleJson)) (entry : String × JVal) :
    Except BuildErr (List RenderInstr × StyleJson) :=
  match acc with
  | .error e => .error e
  | .ok (instrs, sj) =>
    match assembleSection sj titleAdded titleVal docType entry.2 with
    | .error e => .error e
    | .ok (instrs2, sj2) => .ok (instrs ++ instrs2, sj2)

/-- The title step of `build_document_from_json_content` (document_builder.py
lines 219-225): if `"title"` is present its value becomes a paragraph styled
with `"Heading 1"` (falling back to `"Normal"`), and `title_added` is set. -/
def assembleTitle (styleJson : StyleJson) (content : List (String × JVal)) :
    Except BuildErr (List RenderInstr × Bool) :=
  match aget content "title" with
  | some tv =>
    match add_paragraph_text tv with
    | .error e => .error e
    | .ok txt =>
      .ok ([.body txt (apply_style_to_paragraph (styleGetOr styleJson "Heading 1" "Normal"))], true)
  | none => .ok ([], false)

/-- The content-assembly part of `build_document_from_json_content`
(document_builder.py lines 219-252): title first, then the sections in
order.  A `"sections"` value that is not a dictionary raises
(`.items()`). -/
def assembleContent (styleJson : StyleJson) (docType : String)
    (content : List (String × JVal)) :
    Except BuildErr (List RenderInstr × StyleJson) :=
  match assembleTitle styleJson content with
  | .error e => .error e
  | .ok (titleInstrs, titleAdded) =>
    match aget content "sections" with
    | none => .ok (titleInstrs, styleJson)
    | some (.obj sections) =>
      sections.foldl
        (assembleFold docType titleAdded ((aget content "title").getD (JVal.str "")))
        (.ok (titleInstrs, styleJson))
    | some _ => .error (.attributeError "items")

/-! ## Document building (document_builder.py lines 174-261) -/

/-- `DOC_OUTPUT_DIR` relative to the repository base (config.py). -/
def docOutputDir : String := "output/docs"

/-- The file-system and style-store facts `build_document_from_json_content`
depends on. -/
structure BuildEnv where
  templatePath : String
  templateExists : Bool
  refProvided : Bool
  refExistsOnDisk : Bool
  refExtract : Except BuildErr StyleJson
  catFile : Option (Except BuildErr StyleJson)

/-- `build_document_from_json_content(template_path, doc_type, json_content,
output_filename, reference_doc_path)` (document_builder.py lines 174-261):
check the template exists (raise `FileNotFoundError` otherwise), resolve the
style profile, assemble the content, and only then save the artifact.  The
result pairs the list of output files written (path with rendered
instructions) with the returned path or the raised exception; `doc.save` is
the last step, so an exception always leaves the written-files list
empty. -/
def build_document_from_json_content (env : BuildEnv)
    (jsonContent : List (String × JVal)) (docType outputFilename : String) :
    List (String × List RenderInstr) × Except BuildErr String :=
  if !env.templateExists then
    ([], .error (.fileNotFound ("Template not found: " ++ env.templatePath)))
  else
    match resolveStyles env.refProvided env.refExistsOnDisk env.refExtract env.catFile with
    | .error e => ([], .error e)
    | .ok styleJson =>
      match assembleContent styleJson docType jsonContent with
      | .error e => ([], .error e)
      | .ok (instrs, _) =>
        let outputPath := docOutputDir ++ "/" ++ outputFilename
        ([(outputPath, instrs)], .ok outputPath)

/-! ## Spec-side definitions used to compare spec wording with the code -/

/-- Signature parsing as the spec words it: scan lines for the pattern
`"<Label>: <value>"`, the label matched as the line's prefix up to the
colon and the value extracted as the remainder.  Stated for comparison with
`parseParties`, which is the code's actual algorithm. -/
def specSignatureParse (rawText : String) : String × String :=
  (pySplitLines rawText).foldl
    (fun acc line =>
      if isPrefixL "Disclosing Party:".data line.data then
        (pyStrip (String.mk (line.data.drop "Disclosing Party:".data.length)), acc.2)
      else if isPrefixL "Receiving Party:".data line.data then
        (acc.1, pyStrip (String.mk (line.data.drop "Receiving Party:".data.length)))
      else acc)
    ("", "")

/-- The extraction the code actually performs, stated without the fold: the
last line containing `"Disclosing Party:"` anywhere (case-sensitively),
with every occurrence of the label removed and the result stripped; and
likewise for `"Receiving Party:"` over the lines not containing the
disclosing label; empty values when no line matches. -/
def amendedSignatureParse (rawText : String) : String × String :=
  let lines := pySplitLines rawText
  (((lines.reverse.find? (fun l => pyContains l "Disclosing Party:")).map
      (fun l => pyStrip (pyReplaceEmpty l "Disclosing Party:"))).getD "",
   ((lines.reverse.find? (fun l =>
        !pyContains l "Disclosing Party:" && pyContains l "Receiving Party:")).map
      (fun l => pyStrip (pyReplaceEmpty l "Receiving Party:"))).getD "")

/-- The expected shape of a structured content document, following the
spec's words: optional string title, and a `sections` object whose entries
are objects with string `type` and string `content`. -/
def specSectionShaped : JVal → Bool
  | .obj fields =>
    (match aget fields "type" with
     | some (.str _) => true
     | _ => false) &&
    (match aget fields "content" with
     | some (.str _) => true
     | _ => false)
  | _ => false

/-- The expected shape of the whole content document, following the spec's
words (external-interface section). -/
def specExpectedShape (content : List (String × JVal)) : Bool :=
  (match aget content "title" with
   | none => true
   | some (.str _) => true
   | some _ => false) &&
  (match aget content "sections" with
   | some (.obj sections) => sections.all (fun kv => specSectionShaped kv.2)
   | _ => false)

/-- Whether the per-category style file, when it exists, parses as JSON. -/
def catFileParses : Option (Except BuildErr StyleJson) → Bool
  | some (.error _) => false
  | _ => true

/-- The section type strings the builder knows about. -/
def knownSectionTypes : List String :=
  ["Heading 1", "Heading 2", "Paragraph", "Normal", "Signature"]

/-- A section whose type is `"Heading 1"` and whose content equals the given
title text. -/
def h1TitleSection (t : String) : JVal :=
  .obj [("type", .str "Heading 1"), ("content", .str t)]

/-! ## Concrete inputs used by counterexamples and witnesses -/

/-- An environment whose per-category style file exists but is corrupt. -/
def envCorruptStyle : BuildEnv :=
  { templatePath := "templates/nda.docx"
    templateExists := true
    refProvided := false
    refExistsOnDisk := false
    refExtract := .error .jsonDecodeError
    catFile := some (.error .jsonDecodeError) }

/-- An environment with an existing template, no reference document and no
per-category style file. -/
def envOk : BuildEnv :=
  { templatePath := "templates/nda.docx"
    templateExists := true
    refProvided := false
    refExistsOnDisk := false
    refExtract := .error .jsonDecodeError
    catFile := none }

/-- An environment whose template container is missing. -/
def envMissingTemplate : BuildEnv :=
  { templatePath := "missing.docx"
    templateExists := false
    refProvided := false
    refExistsOnDisk := false
    refExtract := .error .jsonDecodeError
    catFile := none }

/-- A simple well-shaped NDA content document. -/
def ndaContent : List (String × JVal) :=
  [("title", .str "NDA"),
   ("sections", .obj [("s1", .obj [("type", .str "Paragraph"), ("content", .str "Hello")])])]

/-- A malformed content document: the section's `type` is a number, not a
string. -/
def malformedContent : List (String × JVal) :=
  [("sections", .obj [("a", .obj [("type", .num 123), ("content", .str "hi")])])]

/-- A profile that contains an entry for the non-standard style name
`"Fancy"` in addition to the defaults (as extraction from a template with a
`Fancy` paragraph style would produce). -/
def fancyStyles : StyleJson :=
  get_default_styles ++ [("Fancy", [("align", SVal.s "center")])]

/-- A section with the unknown type string `"Fancy"`. -/
def fancySection : JVal :=
  .obj [("type", .str "Fancy"), ("content", .str "x")]

/-- A signature text whose label occurs mid-line rather than as the line's
prefix. -/
def rawMidLabel : String := "x Disclosing Party: Alice"

/-- A signature text carrying both party labels. -/
def rawBothParties : String := "Disclosing Party: Acme Corp\nReceiving Party: Globex"

/-- A signature text from which no party name can be parsed. -/
def rawNoParties : String := "Signatures below"

/-- The instructions assembled from `ndaContent` under the default table. -/
def ndaInstrs : List RenderInstr :=
  [.body "NDA" (apply_style_to_paragraph (styleGetOr get_default_styles "Heading 1" "Normal")),
   .body "Hello"
     (apply_style_to_paragraph
       (dset (styleCopy (styleGetOr get_default_styles "Paragraph" "Normal"))
         "align" (SVal.s "justify")))]

/-- Decidable equality of build outcomes, for evaluating counterexamples. -/
instance exceptDecEq {ε α : Type} [DecidableEq ε] [DecidableEq α] :
    DecidableEq (Except ε α) := fun x y =>
  match x, y with
  | .ok a, .ok b =>
    if h : a = b then .isTrue (by rw [h]) else .isFalse (fun hc => h (by cases hc; rfl))
  | .error a, .error b =>
    if h : a = b then .isTrue (by rw [h]) else .isFalse (fun hc => h (by cases hc; rfl))
  | .ok _, .error _ => .isFalse (fun hc => Except.noConfusion hc)
  | .error _, .ok _ => .isFalse (fun hc => Except.noConfusion hc)

/-! ## Helper lemmas -/

@[simp]
theorem aget_nil {α : Type} (key : String) : aget ([] : List (String × α)) key = none := rfl

@[simp]
theorem aget_cons {α : Type} (k : String) (v : α) (rest : List (String × α)) (key : String) :
    aget ((k, v) :: rest) key = if k = key then some v else aget rest key := rfl

theorem aget_append {α : Type} (d e : List (String × α)) (key : String) :
    aget (d ++ e) key =
      match aget d key with
      | some v => some v
      | none => aget e key := by
  induction d with
  | nil => simp
  | cons head rest ih =>
    obtain ⟨k0, v0⟩ := head
    by_cases h : k0 = key <;> simp [h, ih]

theorem dget_dset_self (d : StyleProps) (k : String) (v : SVal) :
    dget (dset d k v) k = some v := by
  induction d with
  | nil => simp [dset, dget]
  | cons head rest ih =>
    obtain ⟨k0, v0⟩ := head
    by_cases h : k0 = k
    · simp [dset, dget, h]
    · simpa [dset, dget, h] using ih

theorem pyEq_str_str (a b : String) : pyEq (.str a) (.str b) = (a == b) := rfl

/-- The alignment applied after the builder forces `"align"` to
`"justify"` is justified, whatever the dictionary held before. -/
theorem applied_align_justify (d : StyleProps) :
    (apply_style_to_paragraph (dset d "align" (SVal.s "justify"))).align = Alignment.justify := by
  simp [apply_style_to_paragraph, dget_dset_self, alignMapGet]

theorem find?_append_last {α : Type} (p : α → Bool) (l1 l2 : List α) :
    (l1 ++ l2).find? p =
      match l1.find? p with
      | some v => some v
      | none => l2.find? p := by
  induction l1 with
  | nil => simp
  | cons head rest ih =>
    by_cases h : p head <;> simp [List.find?, h, ih]

/-- A matching `Heading 1` section contributes nothing (the skip branch of
the section loop). -/
theorem assembleSection_h1_skip (styleJson : StyleJson) (t : String) (docType : String) :
    assembleSection styleJson true (JVal.str t) docType (h1TitleSection t) =
      .ok ([], styleJson) := by
  simp [assembleSection, h1TitleSection, pyEq_str_str]

/-- One fold step over a matching `Heading 1` section leaves the
accumulator unchanged. -/
theorem assembleFold_h1_skip (docType t name : String)
    (acc : Except BuildErr (List RenderInstr × StyleJson)) :
    assembleFold docType true (JVal.str t) acc (name, h1TitleSection t) = acc := by
  match acc with
  | .error e => rfl
  | .ok (instrs, sj) => simp [assembleFold, assembleSection_h1_skip]

/-- Each section step returns the style profile it was given (the one
dictionary write in the loop happens on a `styleCopy`). -/
theorem assembleSection_state (styleJson : StyleJson) (titleAdded : Bool) (titleVal : JVal)
    (docType : String) (sectionData : JVal) (instrs : List RenderInstr) (sjOut : StyleJson)
    (h : assembleSection styleJson titleAdded titleVal docType sectionData =
      .ok (instrs, sjOut)) : sjOut = styleJson := by
  cases sectionData <;> simp [assembleSection] at h
  case obj fields =>
    split at h
    · cases h; rfl
    · split at h
      · split at h
        · cases h; rfl
        · exact absurd h (by simp)
      · split at h
        · exact absurd h (by simp)
        · cases h; rfl

/-- Folding sections never changes the style profile component. -/
theorem assembleFold_state (docType : String) (titleAdded : Bool) (titleVal : JVal)
    (sections : List (String × JVal)) :
    ∀ (acc : Except BuildErr (List RenderInstr × StyleJson))
      (instrs : List RenderInstr) (sjOut : StyleJson),
      sections.foldl (assembleFold docType titleAdded titleVal) acc = .ok (instrs, sjOut) →
      ∀ (instrs0 : List RenderInstr) (sj0 : StyleJson), acc = .ok (instrs0, sj0) →
      sjOut = sj0 := by
  induction sections with
  | nil =>
    intro acc instrs sjOut h instrs0 sj0 hacc
    rw [hacc] at h
    cases h
    rfl
  | cons entry rest ih =>
    intro acc instrs sjOut h instrs0 sj0 hacc
    rw [List.foldl_cons] at h
    subst hacc
    rcases h2 : assembleSection sj0 titleAdded titleVal docType entry.2 with e | ⟨instrs2, sj2⟩
    · have hstep : assembleFold docType titleAdded titleVal (.ok (instrs0, sj0)) entry =
        .error e := by simp [assembleFold, h2]
      rw [hstep] at h
      have : ∀ (l : List (String × JVal)) e2,
          l.foldl (assembleFold docType titleAdded titleVal) (.error e2) = .error e2 := by
        intro l
        induction l with
        | nil => intro e2; rfl
        | cons x xs ihl => intro e2; simpa [assembleFold] using ihl e2
      rw [this rest e] at h
      exact absurd h (by simp)
    · have hsj2 : sj2 = sj0 := assembleSection_state _ _ _ _ _ _ _ h2
      have hstep : assembleFold docType titleAdded titleVal (.ok (instrs0, sj0)) entry =
        .ok (instrs0 ++ instrs2, sj2) := by simp [assembleFold, h2]
      rw [hstep] at h
      exact hsj2 ▸ ih _ _ _ h _ _ rfl

/-- Injecting defaults and appending entries preserves key presence. -/
theorem pget_isSome_append (d e : StyleJson) (k : String)
    (h : (pget d k).isSome = true) : (pget (d ++ e) k).isSome = true := by
  unfold pget at h ⊢
  rw [aget_append]
  cases hd : aget d k
  · rw [hd] at h
    simp at h
  · simp

/-- After the essential-style injection fold, every key of the injected list
(and every key already present) is present. -/
theorem foldl_injectStep_isSome (entries : List (String × StyleProps)) :
    ∀ (d : StyleJson) (k : String),
      ((pget d k).isSome = true ∨ k ∈ entries.map Prod.fst) →
      (pget (entries.foldl injectStep d) k).isSome = true := by
  induction entries with
  | nil =>
    intro d k h
    rcases h with h | h
    · exact h
    · simp at h
  | cons entry rest ih =>
    intro d k h
    rcases entry with ⟨ek, ev⟩
    rw [List.foldl_cons]
    apply ih
    rcases h with h | h
    · left
      unfold injectStep
      split
      · exact h
      · exact pget_isSome_append _ _ _ h
    · rw [List.map_cons, List.mem_cons] at h
      rcases h with h | h
      · left
        unfold injectStep
        split
        · next hp => exact h ▸ hp
        · next hp =>
          subst h
          unfold pget at hp ⊢
          rw [aget_append]
          cases hd : aget d k
          · simp
          · rw [hd] at hp
            simp at hp
      · right
        exact h

/-- The party-extraction fold computes, in each component, the last matching
line's extracted value (default: the accumulator's component). -/
theorem partyFold_last (lines : List String) :
    ∀ acc : String × String,
      lines.foldl partyStep acc =
        (((lines.reverse.find? (fun l => pyContains l "Disclosing Party:")).map
            (fun l => pyStrip (pyReplaceEmpty l "Disclosing Party:"))).getD acc.1,
         ((lines.reverse.find? (fun l =>
              !pyContains l "Disclosing Party:" && pyContains l "Receiving Party:")).map
            (fun l => pyStrip (pyReplaceEmpty l "Receiving Party:"))).getD acc.2) := by
  induction lines with
  | nil => intro acc; simp
  | cons l ls ih =>
    intro acc
    rw [List.foldl_cons, ih, List.reverse_cons, find?_append_last, find?_append_last]
    cases hd : pyContains l "Disclosing Party:" <;>
      cases hr : pyContains l "Receiving Party:" <;>
      cases hfD : ls.reverse.find? (fun l => pyContains l "Disclosing Party:") <;>
      cases hfR : ls.reverse.find? (fun l =>
        !pyContains l "Disclosing Party:" && pyContains l "Receiving Party:") <;>
      simp [partyStep, hd, hr, hfD, hfR, List.find?]

/-! ## Claim C1 -/

/-- C1 counterexample: resolution with no reference template and no
per-category style file returns the global default table, whose
`"Heading 1"` entry has no `"underline"` key (nor indent keys) — so not
every essential style maps to a fully-populated spec. -/
theorem essential_styles_fully_populated_cex :
    resolveStyles false false (.error .jsonDecodeError) none = .ok get_default_styles ∧
    (pget get_default_styles "Heading 1").isSome = true ∧
    dget ((pget get_default_styles "Heading 1").getD []) "underline" = none :=
  ⟨rfl, rfl, rfl⟩

/-- C1 (amended): every profile produced by template extraction or the
default table contains all five essential style names, and an existing,
parseable per-category style file is returned verbatim (so its completeness
is whatever the file provides); default-table entries carry six fields and
omit `underline` and the indent keys, which the paragraph-styling defaults
supply at application time. -/
theorem essential_styles_present_amended (paras : List TemplatePara) (sj : StyleJson)
    (k : String) (hk : k ∈ essentialNames) :
    (pget (extract_styles_from_template paras) k).isSome = true ∧
    (pget get_default_styles k).isSome = true ∧
    load_style_json (some (.ok sj)) = .ok sj := by
  refine ⟨?_, ?_, rfl⟩
  · unfold extract_styles_from_template
    apply foldl_injectStep_isSome
    right
    have hmap : List.map Prod.fst get_default_styles = essentialNames := rfl
    rw [hmap]
    exact hk
  · simp only [essentialNames, List.mem_cons, List.not_mem_nil, or_false] at hk
    rcases hk with rfl | rfl | rfl | rfl | rfl <;> rfl

/-- C1 witness: the amended statement at `k = "Signature"`, an empty
template and a one-key style file. -/
theorem essential_styles_present_amended_witness :
    "Signature" ∈ essentialNames ∧
    ((pget (extract_styles_from_template []) "Signature").isSome = true ∧
     (pget get_default_styles "Signature").isSome = true ∧
     load_style_json (some (.ok [("Normal", [])])) = .ok [("Normal", [])]) :=
  ⟨by simp [essentialNames],
   essential_styles_present_amended [] [("Normal", [])] "Signature" (by simp [essentialNames])⟩

/-! ## Claim C6 -/

/-- C6 counterexample: style resolution can raise out of the assembly call —
with no reference template and an existing but corrupt per-category style
file, `json.load` raises inside `load_style_json` and the error escapes
`build_document_from_json_content`. -/
theorem style_resolution_error_cex :
    resolveStyles false false (.error .jsonDecodeError) (some (.error .jsonDecodeError)) =
      .error .jsonDecodeError ∧
    (build_document_from_json_content envCorruptStyle ndaContent "NDA" "nda_draft.docx").2 =
      .error .jsonDecodeError ∧
    (build_document_from_json_content envCorruptStyle ndaContent "NDA" "nda_draft.docx").1 = [] :=
  ⟨rfl, rfl, rfl⟩

/-- C6 (amended): provided the per-category style file, when it exists,
parses, style resolution never raises: reference-extraction failures and a
missing reference silently fall back to `load_style_json`, which returns
the per-category file's mapping when present and the global default table
otherwise. -/
theorem style_resolution_fallback_amended (refProvided refExistsOnDisk : Bool)
    (refExtract : Except BuildErr StyleJson) (catFile : Option (Except BuildErr StyleJson))
    (h : catFileParses catFile = true) :
    (resolveStyles refProvided refExistsOnDisk refExtract catFile).isOk = true ∧
    resolveStyles false false refExtract catFile = load_style_json catFile ∧
    load_style_json none = .ok get_default_styles := by
  refine ⟨?_, rfl, rfl⟩
  have hcf : (load_style_json catFile).isOk = true := by
    match catFile with
    | none => rfl
    | some (.ok s) => rfl
    | some (.error e) => simp [catFileParses] at h
  unfold resolveStyles
  cases hb : refProvided && refExistsOnDisk
  · simpa [hb] using hcf
  · cases refExtract with
    | error e => simpa [hb] using hcf
    | ok sj =>
      by_cases hsj : sj.isEmpty <;> simp [hb, hsj, Except.isOk, Except.toBool]
      exact hcf

/-- C6 witness: the amended statement where extraction was attempted and
failed and no per-category style file exists. -/
theorem style_resolution_fallback_amended_witness :
    catFileParses none = true ∧
    ((resolveStyles true true (.error .jsonDecodeError) none).isOk = true ∧
     resolveStyles false false (.error .jsonDecodeError) none = load_style_json none ∧
     load_style_json none = .ok get_default_styles) :=
  ⟨rfl, style_resolution_fallback_amended true true (.error .jsonDecodeError) none rfl⟩

/-! ## Claim C8 -/

/-- C8 counterexample: on a line where the label occurs mid-line, the code
extracts `"x  Alice"` (whole line with the label removed, stripped), while
prefix-matching parsing as the claim words it would ignore the line. -/
theorem signature_parse_prefix_cex :
    parseParties rawMidLabel ≠ specSignatureParse rawMidLabel ∧
    parseParties rawMidLabel = ("x  Alice", "") ∧
    specSignatureParse rawMidLabel = ("", "") := by
  refine ⟨?_, by decide, by decide⟩
  decide

/-- C8 (amended): parsing scans each line of the raw text; a line
recognizes a label by case-sensitive substring containment (not prefix
matching), the extracted value is the whole line with every occurrence of
the label removed and stripped, the last matching line wins, a line
containing the disclosing label is never considered for the receiving
label, and unmatched lines are ignored. -/
theorem signature_parse_containment_amended (rawText : String) :
    parseParties rawText = amendedSignatureParse rawText := by
  unfold parseParties amendedSignatureParse
  rw [partyFold_last]

/-! ## Claim C2 -/

/-- C2: every section whose type is `"Paragraph"` or `"Normal"` is assembled
into a single body instruction whose style dictionary had its `"align"` key
forced to `"justify"` (on a copy), so the applied alignment is justified
regardless of the alignment stored in the resolved style. -/
theorem paragraph_alignment_forced_justify (styleJson : StyleJson) (titleAdded : Bool)
    (titleVal : JVal) (docType contentText ty : String)
    (h : ty = "Paragraph" ∨ ty = "Normal") :
    assembleSection styleJson titleAdded titleVal docType
        (JVal.obj [("type", JVal.str ty), ("content", JVal.str contentText)]) =
      .ok ([RenderInstr.body contentText
              (apply_style_to_paragraph
                (dset (styleCopy (styleGetOr styleJson ty "Normal")) "align"
                  (SVal.s "justify")))],
           styleJson) ∧
    (apply_style_to_paragraph
        (dset (styleCopy (styleGetOr styleJson ty "Normal")) "align"
          (SVal.s "justify"))).align = Alignment.justify := by
  constructor
  · rcases h with rfl | rfl <;>
      simp [assembleSection, pyEq_str_str, add_paragraph_text, styleGetForType]
  · exact applied_align_justify _

/-- C2 witness: a `"Paragraph"` section under the default table. -/
theorem paragraph_alignment_forced_justify_witness :
    (("Paragraph" : String) = "Paragraph" ∨ ("Paragraph" : String) = "Normal") ∧
    (assembleSection get_default_styles false (JVal.str "") "NDA"
        (JVal.obj [("type", JVal.str "Paragraph"), ("content", JVal.str "Hello")]) =
      .ok ([RenderInstr.body "Hello"
              (apply_style_to_paragraph
                (dset (styleCopy (styleGetOr get_default_styles "Paragraph" "Normal"))
                  "align" (SVal.s "justify")))],
           get_default_styles) ∧
     (apply_style_to_paragraph
        (dset (styleCopy (styleGetOr get_default_styles "Paragraph" "Normal"))
          "align" (SVal.s "justify"))).align = Alignment.justify) :=
  ⟨Or.inl rfl,
   paragraph_alignment_forced_justify get_default_styles false (JVal.str "") "NDA" "Hello"
     "Paragraph" (Or.inl rfl)⟩

/-! ## Claim C3 -/

/-- C3: with a title present, a `"Heading 1"` section whose content is
textually identical to the title is skipped — inserting such a section
anywhere among the sections leaves the assembly result unchanged — and a
titled document with no sections emits the title exactly once, as the
single Heading-1-styled instruction. -/
theorem duplicate_title_heading_skipped (styleJson : StyleJson) (docType t name : String)
    (pre post : List (String × JVal)) :
    assembleContent styleJson docType
        [("title", JVal.str t),
         ("sections", JVal.obj (pre ++ (name, h1TitleSection t) :: post))] =
      assembleContent styleJson docType
        [("title", JVal.str t), ("sections", JVal.obj (pre ++ post))] ∧
    assembleContent styleJson docType [("title", JVal.str t)] =
      .ok ([RenderInstr.body t
              (apply_style_to_paragraph (styleGetOr styleJson "Heading 1" "Normal"))],
           styleJson) := by
  have hred : ∀ L : List (String × JVal),
      assembleContent styleJson docType [("title", JVal.str t), ("sections", JVal.obj L)] =
        L.foldl (assembleFold docType true (JVal.str t))
          (.ok ([RenderInstr.body t
                   (apply_style_to_paragraph (styleGetOr styleJson "Heading 1" "Normal"))],
                styleJson)) := by
    intro L
    simp [assembleContent, assembleTitle, add_paragraph_text]
  constructor
  · rw [hred, hred, List.foldl_append, List.foldl_append, List.foldl_cons,
      assembleFold_h1_skip]
  · simp [assembleContent, assembleTitle, add_paragraph_text]

/-! ## Claim C4 -/

/-- C4: for the NDA category the signature layout is a vertical block of
exactly two styled paragraphs — the Disclosing Party name over a signature
rule, then a separate date line — determined by the disclosing value alone,
so no Receiving Party element is ever emitted even if the raw text contains
a `"Receiving Party:"` line. -/
theorem nda_signature_single_party (raw : String) (styleJson : StyleJson) (docType : String)
    (h : pyUpper docType = "NDA") :
    add_signature_section raw styleJson docType =
      [RenderInstr.body ("Disclosing Party:\n" ++ (parseParties raw).1 ++ "\n\n" ++ ruleLine)
          (apply_style_to_paragraph
            ((pget styleJson "Signature").getD ((pget styleJson "Normal").getD []))),
       RenderInstr.body dateLine
          (apply_style_to_paragraph
            ((pget styleJson "Signature").getD ((pget styleJson "Normal").getD [])))] := by
  simp [add_signature_section, add_nda_signature, h]

/-- C4 witness: category `"nda"` and a raw text that does contain a
Receiving Party line. -/
theorem nda_signature_single_party_witness :
    pyUpper "nda" = "NDA" ∧
    add_signature_section rawBothParties get_default_styles "nda" =
      [RenderInstr.body
          ("Disclosing Party:\n" ++ (parseParties rawBothParties).1 ++ "\n\n" ++ ruleLine)
          (apply_style_to_paragraph
            ((pget get_default_styles "Signature").getD
              ((pget get_default_styles "Normal").getD []))),
       RenderInstr.body dateLine
          (apply_style_to_paragraph
            ((pget get_default_styles "Signature").getD
              ((pget get_default_styles "Normal").getD [])))] :=
  ⟨rfl, nda_signature_single_party rawBothParties get_default_styles "nda" rfl⟩

/-! ## Claim C5 -/

/-- C5: for the Contract, MOU, IP_Agreement and Offer_Letter categories the
signature layout is a 2x2 table with `nil` borders on every cell, equal
3-inch columns, Disclosing Party in the left cell and Receiving Party in
the right (each value the empty string when unparseable, since parsing is
total with empty defaults), and a merged second row holding the single date
line. -/
theorem contract_signature_two_party (raw : String) (styleJson : StyleJson) (docType : String)
    (h : docType = "Contract" ∨ docType = "MOU" ∨ docType = "IP_Agreement" ∨
      docType = "Offer_Letter") :
    add_signature_section raw styleJson docType =
      [RenderInstr.sigTable
        { rows := 2
          cols := 2
          cell00 := { text := "Disclosing Party:\n" ++ (parseParties raw).1 ++ "\n\n" ++ ruleLine
                      borders := nilBorders }
          cell01 := { text := "Receiving Party:\n" ++ (parseParties raw).2 ++ "\n\n" ++ ruleLine
                      borders := nilBorders }
          dateCell := { text := dateLine, borders := nilBorders }
          dateMerged := true
          colWidthInches := (3, 3) }] := by
  rcases h with rfl | rfl | rfl | rfl <;>
    simp [add_signature_section, add_contract_signature,
      (by decide : ¬ (pyUpper "Contract" = "NDA")),
      (by decide : ¬ (pyUpper "MOU" = "NDA")),
      (by decide : ¬ (pyUpper "IP_Agreement" = "NDA")),
      (by decide : ¬ (pyUpper "Offer_Letter" = "NDA"))]

/-- C5 witness: category `"MOU"` with a raw text from which neither party
can be parsed — both cells carry the empty value and assembly does not
fail. -/
theorem contract_signature_two_party_witness :
    (("MOU" : String) = "Contract" ∨ ("MOU" : String) = "MOU" ∨
      ("MOU" : String) = "IP_Agreement" ∨ ("MOU" : String) = "Offer_Letter") ∧
    add_signature_section rawNoParties get_default_styles "MOU" =
      [RenderInstr.sigTable
        { rows := 2
          cols := 2
          cell00 := { text := "Disclosing Party:\n" ++ (parseParties rawNoParties).1 ++
                        "\n\n" ++ ruleLine
                      borders := nilBorders }
          cell01 := { text := "Receiving Party:\n" ++ (parseParties rawNoParties).2 ++
                        "\n\n" ++ ruleLine
                      borders := nilBorders }
          dateCell := { text := dateLine, borders := nilBorders }
          dateMerged := true
          colWidthInches := (3, 3) }] :=
  ⟨Or.inr (Or.inl rfl),
   contract_signature_two_party rawNoParties get_default_styles "MOU" (Or.inr (Or.inl rfl))⟩

/-! ## Claim C7 -/

/-- C7 counterexample: a malformed content document — the section's `type`
is a number, not a string — is not rejected: building succeeds and writes a
complete artifact (the section silently styled with the `"Normal"`
fallback), contradicting fail-fast on malformed content. -/
theorem malformed_content_build_cex :
    specExpectedShape malformedContent = false ∧
    build_document_from_json_content envOk malformedContent "NDA" "out.docx" =
      ([("output/docs/out.docx",
         [RenderInstr.body "hi"
            (apply_style_to_paragraph ((pget get_default_styles "Normal").getD []))])],
       .ok "output/docs/out.docx") :=
  ⟨rfl, by decide⟩

/-- C7 (amended): building fails fast with a descriptive error when the
template container is missing, and whenever building fails no output file
has been written (saving is the last step); malformed content documents,
however, are not validated as such — some malformed shapes incidentally
raise before any output is written, while others (e.g. a non-string section
type) are silently absorbed and a complete artifact is produced. -/
theorem fatal_precondition_amended (env : BuildEnv) (content : List (String × JVal))
    (docType outputFilename : String) :
    (env.templateExists = false →
      build_document_from_json_content env content docType outputFilename =
        ([], .error (.fileNotFound ("Template not found: " ++ env.templatePath)))) ∧
    ((build_document_from_json_content env content docType outputFilename).2.isOk = false →
      (build_document_from_json_content env content docType outputFilename).1 = []) := by
  constructor
  · intro h
    simp [build_document_from_json_content, h]
  · intro h
    unfold build_document_from_json_content at h ⊢
    cases hex : env.templateExists
    · simp [hex]
    · simp only [hex] at h ⊢
      cases hr : resolveStyles env.refProvided env.refExistsOnDisk env.refExtract env.catFile with
      | error e => simp [hr]
      | ok sj =>
        cases ha : assembleContent sj docType content with
        | error e => simp [hr, ha]
        | ok p =>
          obtain ⟨instrs, sj2⟩ := p
          exfalso
          simp [hr, ha, Except.isOk, Except.toBool] at h

/-- C7 witness: the amended statement on the missing-template
environment. -/
theorem fatal_precondition_amended_witness :
    envMissingTemplate.templateExists = false ∧
    build_document_from_json_content envMissingTemplate ndaContent "NDA" "out.docx" =
      ([], .error (.fileNotFound ("Template not found: " ++ envMissingTemplate.templatePath))) ∧
    (build_document_from_json_content envMissingTemplate ndaContent "NDA" "out.docx").1 = [] :=
  ⟨rfl,
   (fatal_precondition_amended envMissingTemplate ndaContent "NDA" "out.docx").1 rfl,
   (fatal_precondition_amended envMissingTemplate ndaContent "NDA" "out.docx").2 rfl⟩

/-! ## Claim C9 -/

/-- C9 counterexample: a section typed with the unknown string `"Fancy"`
against a profile that happens to contain a `"Fancy"` entry is styled with
that entry (center alignment), not with the profile's `"Normal"` spec — so
unknown types are not always treated as `"Normal"`. -/
theorem unknown_type_normal_cex :
    assembleSection fancyStyles false (JVal.str "") "NDA" fancySection ≠
      .ok ([RenderInstr.body "x"
              (apply_style_to_paragraph ((pget fancyStyles "Normal").getD []))],
           fancyStyles) ∧
    assembleSection fancyStyles false (JVal.str "") "NDA" fancySection =
      .ok ([RenderInstr.body "x"
              (apply_style_to_paragraph [("align", SVal.s "center")])],
           fancyStyles) :=
  ⟨by decide, by decide⟩

/-- C9 (amended): a section whose type string is none of the known types
never fails assembly and is emitted as a single body instruction, styled
with `profile[type]` when the profile happens to contain that string as a
key and with the profile's `"Normal"` spec otherwise; its alignment is not
forced to justify. -/
theorem unknown_type_fallback_amended (styleJson : StyleJson) (titleAdded : Bool)
    (titleVal : JVal) (docType contentText ty : String) (h : ty ∉ knownSectionTypes) :
    assembleSection styleJson titleAdded titleVal docType
        (JVal.obj [("type", JVal.str ty), ("content", JVal.str contentText)]) =
      .ok ([RenderInstr.body contentText
              (apply_style_to_paragraph (styleGetOr styleJson ty "Normal"))],
           styleJson) := by
  simp only [knownSectionTypes, List.mem_cons, List.not_mem_nil, or_false, not_or] at h
  obtain ⟨h1, h2, h3, h4, h5⟩ := h
  have e1 : (ty == "Heading 1") = false := beq_eq_false_iff_ne.mpr h1
  have e3 : (ty == "Paragraph") = false := beq_eq_false_iff_ne.mpr h3
  have e4 : (ty == "Normal") = false := beq_eq_false_iff_ne.mpr h4
  have e5 : (ty == "Signature") = false := beq_eq_false_iff_ne.mpr h5
  simp [assembleSection, pyEq_str_str, e1, e3, e4, e5, add_paragraph_text, styleGetForType]

/-- C9 witness: the unknown type `"Fancy"` under the default table. -/
theorem unknown_type_fallback_amended_witness :
    "Fancy" ∉ knownSectionTypes ∧
    assembleSection get_default_styles false (JVal.str "") "NDA"
        (JVal.obj [("type", JVal.str "Fancy"), ("content", JVal.str "x")]) =
      .ok ([RenderInstr.body "x"
              (apply_style_to_paragraph (styleGetOr get_default_styles "Fancy" "Normal"))],
           get_default_styles) :=
  ⟨by decide,
   unknown_type_fallback_amended get_default_styles false (JVal.str "") "NDA" "x" "Fancy"
     (by decide)⟩

/-! ## Claim C10 -/

/-- C10: assembly never mutates the style profile it is given — whenever
the assembler succeeds, the style profile component it returns (threading
every dictionary operation of the loop) is exactly the input profile; the
justify-forcing write happens on a `styleCopy`. -/
theorem assembly_preserves_style_profile (styleJson : StyleJson) (docType : String)
    (content : List (String × JVal)) (instrs : List RenderInstr) (sjOut : StyleJson)
    (h : assembleContent styleJson docType content = .ok (instrs, sjOut)) :
    sjOut = styleJson := by
  unfold assembleContent at h
  cases ht : assembleTitle styleJson content with
  | error e =>
    rw [ht] at h
    simp at h
  | ok p =>
    obtain ⟨titleInstrs, titleAdded⟩ := p
    rw [ht] at h
    cases hs : aget content "sections" with
    | none =>
      rw [hs] at h
      cases h
      rfl
    | some v =>
      rw [hs] at h
      cases v with
      | obj sections =>
        exact assembleFold_state docType titleAdded _ sections _ _ _ h _ _ rfl
      | str s => simp at h
      | num q => simp at h
      | bool b => simp at h
      | null => simp at h
      | arr elems => simp at h

/-- C10 witness: assembling the simple NDA content under the default table
returns the default table unchanged. -/
theorem assembly_preserves_style_profile_witness :
    assembleContent get_default_styles "NDA" ndaContent = .ok (ndaInstrs, get_default_styles) ∧
    get_default_styles = get_default_styles :=
  ⟨by decide,
   assembly_preserves_style_profile get_default_styles "NDA" ndaContent ndaInstrs
     get_default_styles (by decide)⟩

end LegalDocAI
